import Mathlib

/-!
Shallow embedding of the admin-role reconciliation service
(`AdminService` in the repository's admin service module).

Each remote procedure call (`supabase.rpc`, `supabase.auth.getSession`) is an
awaited call that can (a) resolve to a `{ data, error }` pair with `error`
null, (b) resolve with a non-null `error` object, or (c) reject (throw).
We model each call site by an explicit outcome value supplied through an
environment, and the service methods as total functions of those outcomes.
Invocation counts for the snapshot fetch (`getAdminStatus`) and the sync
request (`syncAdminRole`) are threaded through the result so that claims
about which remote operations run can be stated.
-/

namespace AdminService

/-- A JavaScript-like dynamic value, as carried by the untyped `data` field
of an RPC response. -/
inductive JsVal where
  | bool (b : Bool)
  | str (s : String)
  | null
  | other
deriving DecidableEq

/-- A thrown JavaScript value: either an `Error` object carrying a message
(`error instanceof Error` holds), or any other thrown value. -/
inductive Thrown where
  | errorObj (message : String)
  | other
deriving DecidableEq

/-- Outcome of one awaited `supabase.rpc` call: resolved data with no error,
an error object (whose `message` property may be absent, modelled `none`),
or a thrown exception. -/
inductive Remote (α : Type) where
  | ok (data : α)
  | err (message : Option String)
  | throw (e : Thrown)
deriving DecidableEq

/-- The `RoleOperationResult` interface of the source. -/
structure RoleOperationResult where
  success : Bool
  message : String
  user_id : Option String
  user_email : Option String
deriving DecidableEq

/-- The `AdminStatus` interface of the source (snapshot returned by the
`debug_admin_status` RPC). -/
structure AdminStatus where
  authenticated : Bool
  user_id : Option String
  user_email : Option String
  profile_exists : Bool
  profile_role : Option String
  metadata_role : Option String
  is_admin_result : Bool
  timestamp : String
  message : Option String
  raw_metadata : Option JsVal
deriving DecidableEq

/-- The user object inside a session (`session.user`). -/
structure SessionUser where
  id : String
deriving DecidableEq

/-- An authenticated session. -/
structure Session where
  user : SessionUser
deriving DecidableEq

/-- Outcome of `supabase.auth.getSession()`: resolves with no error and a
possibly-null session, resolves with an error (the session value is then
irrelevant to the code, which tests `sessionError || !session`), or throws. -/
inductive SessionOutcome where
  | ok (session : Option Session)
  | err (session : Option Session)
  | throw (e : Thrown)
deriving DecidableEq

/-- The `{ success, message }` verdict returned by `verifyAndFixAdminAccess`. -/
structure Verdict where
  success : Bool
  message : String
deriving DecidableEq

/-- A reconciliation run: its verdict plus how many times the snapshot
fetch (`getAdminStatus`) and the sync request (`syncAdminRole`) were invoked. -/
structure RunResult where
  verdict : Verdict
  statusFetches : Nat
  syncCalls : Nat
deriving DecidableEq

/-- The behaviors of the three remote call sites used by one
`verifyAndFixAdminAccess` invocation. -/
structure Env where
  session : SessionOutcome
  statusRpc : Remote (Option AdminStatus)
  syncRpc : Remote JsVal
deriving DecidableEq

/-- `isCurrentUserAdmin`: calls the `is_current_user_admin` RPC; returns
`false` on error or throw, else `data === true`. -/
def isCurrentUserAdmin (r : Remote JsVal) : Bool :=
  match r with
  | .ok (.bool true) => true
  | .ok _ => false
  | .err _ => false
  | .throw _ => false

/-- `getAdminStatus`: calls the `debug_admin_status` RPC; returns `null`
(`none`) on error or throw, else the data (which may itself be null). -/
def getAdminStatus (r : Remote (Option AdminStatus)) : Option AdminStatus :=
  match r with
  | .ok d => d
  | .err _ => none
  | .throw _ => none

/-- `syncAdminRole`: calls the `sync_user_admin_role` RPC for the given
user; returns `false` on error or throw, else `true` whatever the data. -/
def syncAdminRole (userId : String) (r : Remote JsVal) : Bool :=
  match userId, r with
  | _, .ok _ => true
  | _, .err _ => false
  | _, .throw _ => false

/-- JavaScript `a || b` for a possibly-absent string `a`: the fallback is
used when `a` is `undefined` or the empty string (both falsy). -/
def jsOrString (a : Option String) (fallback : String) : String :=
  match a with
  | some s => if s = "" then fallback else s
  | none => fallback

/-- The `try` body of `verifyAndFixAdminAccess`.  Only the session accessor
runs outside an inner handler, so only its exception reaches the outer
`catch` (modelled as `Except.error`); the snapshot fetch and the sync
request absorb their own errors and throws inside `getAdminStatus` and
`syncAdminRole`. -/
def verifyBody (env : Env) : Except Thrown RunResult :=
  match env.session with
  | .throw e => .error e
  | .err _ => .ok ⟨⟨false, "No active session. Please log in."⟩, 0, 0⟩
  | .ok none => .ok ⟨⟨false, "No active session. Please log in."⟩, 0, 0⟩
  | .ok (some session) =>
    .ok <|
      match getAdminStatus env.statusRpc with
      | none => ⟨⟨false, "Failed to check admin status."⟩, 1, 0⟩
      | some adminStatus =>
        if !adminStatus.authenticated then
          ⟨⟨false, "User is not authenticated."⟩, 1, 0⟩
        else if adminStatus.is_admin_result then
          ⟨⟨true, "Admin access verified successfully."⟩, 1, 0⟩
        else if adminStatus.metadata_role = some "admin" ∧
            adminStatus.profile_role ≠ some "admin" then
          if syncAdminRole session.user.id env.syncRpc then
            ⟨⟨true, "Admin role synced. Please refresh the page or log out and log back in."⟩, 1, 1⟩
          else
            ⟨⟨false, "Admin privileges not found. Contact support if you should have admin access."⟩, 1, 1⟩
        else
          ⟨⟨false, "Admin privileges not found. Contact support if you should have admin access."⟩, 1, 0⟩

/-- `verifyAndFixAdminAccess`: runs the body; the outer `catch` converts any
exception into the generic failure verdict. -/
def verifyAndFixAdminAccess (env : Env) : RunResult :=
  match verifyBody env with
  | .ok r => r
  | .error _ => ⟨⟨false, "Failed to verify admin access."⟩, 0, 0⟩

/-- `grantAdminRole`: calls the `grant_admin_role` RPC.  On error, returns a
failure result with `error.message || 'Failed to grant admin role'`; on
throw, returns a failure with the thrown Error's message or the fallback;
otherwise returns the data. -/
def grantAdminRole (userId : String) (r : Remote RoleOperationResult) :
    RoleOperationResult :=
  match userId, r with
  | _, .ok d => d
  | _, .err m => ⟨false, jsOrString m "Failed to grant admin role", none, none⟩
  | _, .throw (.errorObj msg) => ⟨false, msg, none, none⟩
  | _, .throw .other => ⟨false, "Failed to grant admin role", none, none⟩

/-- `revokeAdminRole`: same shape as `grantAdminRole` with the
`revoke_admin_role` RPC and its fallback text. -/
def revokeAdminRole (userId : String) (r : Remote RoleOperationResult) :
    RoleOperationResult :=
  match userId, r with
  | _, .ok d => d
  | _, .err m => ⟨false, jsOrString m "Failed to revoke admin role", none, none⟩
  | _, .throw (.errorObj msg) => ⟨false, msg, none, none⟩
  | _, .throw .other => ⟨false, "Failed to revoke admin role", none, none⟩

/-- Claim C2: for every snapshot with `is_admin_result = true` (with a live
session and `authenticated = true`), `verifyAndFixAdminAccess` returns
`{success: true, message: "Admin access verified successfully."}`,
regardless of `profile_role` and `metadata_role`. -/
theorem verify_already_admin (env : Env) (sess : Session) (st : AdminStatus)
    (hs : env.session = .ok (some sess))
    (hst : env.statusRpc = .ok (some st))
    (hauth : st.authenticated = true)
    (hadm : st.is_admin_result = true) :
    (verifyAndFixAdminAccess env).verdict =
      ⟨true, "Admin access verified successfully."⟩ := by
  simp [verifyAndFixAdminAccess, verifyBody, getAdminStatus, hs, hst, hauth, hadm]

/-- Claim C2 witness: a concrete divergent snapshot with
`is_admin_result = true` yields the verified-successfully verdict. -/
theorem verify_already_admin_witness :
    (verifyAndFixAdminAccess
      ⟨.ok (some ⟨⟨"u2"⟩⟩),
       .ok (some ⟨true, some "u2", none, true, some "client", some "admin",
                  true, "t", none, none⟩),
       .ok .null⟩).verdict =
      ⟨true, "Admin access verified successfully."⟩ :=
  verify_already_admin _ ⟨⟨"u2"⟩⟩ _ rfl rfl rfl rfl

/-- Claim C1: for every snapshot with `metadata_role = "admin"`,
`profile_role ≠ "admin"`, `is_admin_result = false` (live session,
`authenticated = true`), exactly one sync request is invoked; a successful
sync yields a success verdict, a failed sync yields the contact-support
failure verdict. -/
theorem verify_repairable_divergence (env : Env) (sess : Session)
    (st : AdminStatus)
    (hs : env.session = .ok (some sess))
    (hst : env.statusRpc = .ok (some st))
    (hauth : st.authenticated = true)
    (hadm : st.is_admin_result = false)
    (hmeta : st.metadata_role = some "admin")
    (hprof : st.profile_role ≠ some "admin") :
    (verifyAndFixAdminAccess env).syncCalls = 1 ∧
    (syncAdminRole sess.user.id env.syncRpc = true →
      (verifyAndFixAdminAccess env).verdict.success = true) ∧
    (syncAdminRole sess.user.id env.syncRpc = false →
      (verifyAndFixAdminAccess env).verdict =
        ⟨false, "Admin privileges not found. Contact support if you should have admin access."⟩) := by
  cases hr : env.syncRpc <;>
    simp [verifyAndFixAdminAccess, verifyBody, getAdminStatus, syncAdminRole,
      hs, hst, hauth, hadm, hmeta, hprof, hr]

/-- Claim C1 witness: a concrete divergent snapshot with a succeeding sync
request gives one sync call and a success verdict. -/
theorem verify_repairable_divergence_witness :
    (verifyAndFixAdminAccess
      ⟨.ok (some ⟨⟨"u1"⟩⟩),
       .ok (some ⟨true, some "u1", none, true, some "client", some "admin",
                  false, "t", none, none⟩),
       .ok .null⟩).syncCalls = 1 ∧
    (verifyAndFixAdminAccess
      ⟨.ok (some ⟨⟨"u1"⟩⟩),
       .ok (some ⟨true, some "u1", none, true, some "client", some "admin",
                  false, "t", none, none⟩),
       .ok .null⟩).verdict.success = true :=
  ⟨(verify_repairable_divergence _ ⟨⟨"u1"⟩⟩ _ rfl rfl rfl rfl rfl
      (by decide)).1,
   (verify_repairable_divergence _ ⟨⟨"u1"⟩⟩ _ rfl rfl rfl rfl rfl
      (by decide)).2.1 rfl⟩

/-- Claim C3: for every snapshot with `authenticated = false` (live session
present), `verifyAndFixAdminAccess` returns
`{success: false, message: "User is not authenticated."}`, regardless of the
role fields and of `is_admin_result`. -/
theorem verify_unauthenticated (env : Env) (sess : Session) (st : AdminStatus)
    (hs : env.session = .ok (some sess))
    (hst : env.statusRpc = .ok (some st))
    (hauth : st.authenticated = false) :
    (verifyAndFixAdminAccess env).verdict =
      ⟨false, "User is not authenticated."⟩ := by
  simp [verifyAndFixAdminAccess, verifyBody, getAdminStatus, hs, hst, hauth]

/-- Claim C3 witness: a concrete unauthenticated snapshot, with admin role
fields set, still yields the not-authenticated failure. -/
theorem verify_unauthenticated_witness :
    (verifyAndFixAdminAccess
      ⟨.ok (some ⟨⟨"u3"⟩⟩),
       .ok (some ⟨false, some "u3", none, true, some "admin", some "admin",
                  true, "t", none, none⟩),
       .ok .null⟩).verdict =
      ⟨false, "User is not authenticated."⟩ :=
  verify_unauthenticated _ ⟨⟨"u3"⟩⟩ _ rfl rfl rfl

/-- Claim C4: when the session accessor yields no session or a session
error, the run returns the no-active-session failure with zero snapshot
fetches and zero sync calls. -/
theorem verify_no_session (env : Env)
    (h : env.session = .ok none ∨ ∃ s, env.session = .err s) :
    verifyAndFixAdminAccess env =
      ⟨⟨false, "No active session. Please log in."⟩, 0, 0⟩ := by
  rcases h with h | ⟨s, h⟩ <;>
    simp [verifyAndFixAdminAccess, verifyBody, h]

/-- Claim C4 witness: a null session short-circuits with no snapshot fetch
and no sync call. -/
theorem verify_no_session_witness :
    verifyAndFixAdminAccess ⟨.ok none, .ok none, .ok .null⟩ =
      ⟨⟨false, "No active session. Please log in."⟩, 0, 0⟩ :=
  verify_no_session _ (Or.inl rfl)

/-- Claim C5: for every snapshot with `metadata_role ≠ "admin"` and
`is_admin_result = false` (live session, `authenticated = true`), no sync
request is invoked and the contact-support failure is returned. -/
theorem verify_no_sync_without_metadata_admin (env : Env) (sess : Session)
    (st : AdminStatus)
    (hs : env.session = .ok (some sess))
    (hst : env.statusRpc = .ok (some st))
    (hauth : st.authenticated = true)
    (hadm : st.is_admin_result = false)
    (hmeta : st.metadata_role ≠ some "admin") :
    (verifyAndFixAdminAccess env).syncCalls = 0 ∧
    (verifyAndFixAdminAccess env).verdict =
      ⟨false, "Admin privileges not found. Contact support if you should have admin access."⟩ := by
  simp [verifyAndFixAdminAccess, verifyBody, getAdminStatus, hs, hst, hauth,
    hadm, hmeta]

/-- Claim C5 witness: a concrete snapshot with client metadata yields zero
sync calls and the contact-support failure. -/
theorem verify_no_sync_without_metadata_admin_witness :
    (verifyAndFixAdminAccess
      ⟨.ok (some ⟨⟨"u5"⟩⟩),
       .ok (some ⟨true, some "u5", none, true, some "client", some "client",
                  false, "t", none, none⟩),
       .ok .null⟩).syncCalls = 0 ∧
    (verifyAndFixAdminAccess
      ⟨.ok (some ⟨⟨"u5"⟩⟩),
       .ok (some ⟨true, some "u5", none, true, some "client", some "client",
                  false, "t", none, none⟩),
       .ok .null⟩).verdict =
      ⟨false, "Admin privileges not found. Contact support if you should have admin access."⟩ :=
  verify_no_sync_without_metadata_admin _ ⟨⟨"u5"⟩⟩ _ rfl rfl rfl rfl
    (by decide)

/-- Claim C6: `isCurrentUserAdmin` never raises (it is a total function into
`Bool`) and returns `true` exactly when the remote call resolves without
error to the boolean `true`; every error, throw, or non-`true` data value
gives `false`. -/
theorem isCurrentUserAdmin_true_iff (r : Remote JsVal) :
    isCurrentUserAdmin r = true ↔ r = .ok (.bool true) := by
  cases r with
  | ok d => cases d with
    | bool b => cases b <;> simp [isCurrentUserAdmin]
    | str s => simp [isCurrentUserAdmin]
    | null => simp [isCurrentUserAdmin]
    | other => simp [isCurrentUserAdmin]
  | err m => simp [isCurrentUserAdmin]
  | throw e => simp [isCurrentUserAdmin]

/-- Claim C7 counterexample: with a live session and a status RPC that
throws — an unexpected transport error at a remote operation — the verdict
message is "Failed to check admin status.", not the generic
"Failed to verify admin access." claimed for every unexpected error. -/
theorem verify_generic_message_counterexample :
    (verifyAndFixAdminAccess
      ⟨.ok (some ⟨⟨"u7"⟩⟩), .throw .other, .ok .null⟩).verdict =
      ⟨false, "Failed to check admin status."⟩ ∧
    ("Failed to check admin status." : String) ≠
      "Failed to verify admin access." := by
  exact ⟨rfl, by decide⟩

/-- Claim C7 amended: `verifyAndFixAdminAccess` never propagates an
exception (it is total and every verdict message comes from the fixed
message set); an exception from the session accessor — the only step whose
throw reaches the outer handler — is converted into the generic
"Failed to verify admin access." failure, while throws inside the snapshot
fetch or the sync request are absorbed by those operations' own handlers
and surface as their specific failure messages. -/
theorem verify_never_raises (env : Env) :
    ((∃ e, env.session = .throw e) →
      verifyAndFixAdminAccess env =
        ⟨⟨false, "Failed to verify admin access."⟩, 0, 0⟩) ∧
    (verifyAndFixAdminAccess env).verdict.message ∈
      ["No active session. Please log in.",
       "Failed to check admin status.",
       "User is not authenticated.",
       "Admin access verified successfully.",
       "Admin role synced. Please refresh the page or log out and log back in.",
       "Admin privileges not found. Contact support if you should have admin access.",
       "Failed to verify admin access."] := by
  obtain ⟨sess, statusRpc, syncRpc⟩ := env
  constructor
  · rintro ⟨e, he⟩
    simp only at he
    subst he
    rfl
  · cases sess with
    | throw e => simp [verifyAndFixAdminAccess, verifyBody]
    | err s => simp [verifyAndFixAdminAccess, verifyBody]
    | ok s =>
      cases s with
      | none => simp [verifyAndFixAdminAccess, verifyBody]
      | some sess =>
        simp only [verifyAndFixAdminAccess, verifyBody]
        cases getAdminStatus statusRpc with
        | none => simp
        | some st =>
          by_cases h1 : st.authenticated <;>
            by_cases h2 : st.is_admin_result <;>
              by_cases h3 : st.metadata_role = some "admin" ∧
                st.profile_role ≠ some "admin" <;>
                by_cases h4 : syncAdminRole sess.user.id syncRpc <;>
                  simp [h1, h2, h3, h4]

/-- Claim C7 amended witness: a throwing session accessor gives the generic
failure verdict with no snapshot fetch and no sync call. -/
theorem verify_never_raises_witness :
    verifyAndFixAdminAccess ⟨.throw .other, .ok none, .ok .null⟩ =
      ⟨⟨false, "Failed to verify admin access."⟩, 0, 0⟩ :=
  (verify_never_raises ⟨.throw .other, .ok none, .ok .null⟩).1 ⟨.other, rfl⟩

/-- Claim C8 counterexample: when the authority reports an error whose
error text is the empty string, `grantAdminRole` returns the fallback
"Failed to grant admin role" instead of the authority's error text. -/
theorem grant_error_text_counterexample :
    (grantAdminRole "u8" (.err (some ""))).message =
      "Failed to grant admin role" ∧
    ("Failed to grant admin role" : String) ≠ "" := by
  exact ⟨rfl, by decide⟩

/-- Claim C8 amended: `grantAdminRole` and `revokeAdminRole` never throw and
always return a `RoleOperationResult`; when the remote call reports an
error the result has `success = false` and, as message, the authority's
error text when that text is present and non-empty, and otherwise the fixed
fallback "Failed to grant admin role" / "Failed to revoke admin role". -/
theorem role_mutation_on_error (userId : String) (m : Option String) :
    (grantAdminRole userId (.err m)).success = false ∧
    (revokeAdminRole userId (.err m)).success = false ∧
    (∀ s, m = some s → s ≠ "" →
      (grantAdminRole userId (.err m)).message = s ∧
      (revokeAdminRole userId (.err m)).message = s) ∧
    ((m = none ∨ m = some "") →
      (grantAdminRole userId (.err m)).message = "Failed to grant admin role" ∧
      (revokeAdminRole userId (.err m)).message =
        "Failed to revoke admin role") := by
  refine ⟨rfl, rfl, ?_, ?_⟩
  · rintro s rfl hs
    simp [grantAdminRole, revokeAdminRole, jsOrString, hs]
  · rintro (rfl | rfl) <;>
      simp [grantAdminRole, revokeAdminRole, jsOrString]

/-- Claim C8 amended witness: a non-empty authority error text is passed
through as the result message with `success = false`. -/
theorem role_mutation_on_error_witness :
    (grantAdminRole "u9" (.err (some "boom"))).success = false ∧
    (grantAdminRole "u9" (.err (some "boom"))).message = "boom" :=
  ⟨(role_mutation_on_error "u9" (some "boom")).1,
   ((role_mutation_on_error "u9" (some "boom")).2.2.1 "boom" rfl
      (by decide)).1⟩

/-- Claim C9: `syncAdminRole` never raises and returns `true` exactly when
the remote call resolves without reporting an error or throwing,
independent of the data value the authority returns. -/
theorem syncAdminRole_true_iff (userId : String) (r : Remote JsVal) :
    syncAdminRole userId r = true ↔ ∃ d, r = .ok d := by
  cases r with
  | ok d => simp [syncAdminRole]
  | err m => simp [syncAdminRole]
  | throw e => simp [syncAdminRole]

/-- Claim C10: whenever the snapshot has `is_admin_result = true` (live
session, `authenticated = true`), no sync request is invoked — even when
`metadata_role = "admin"` and `profile_role ≠ "admin"`, the divergence is
left unrepaired while a success verdict is returned. -/
theorem verify_already_admin_no_sync (env : Env) (sess : Session)
    (st : AdminStatus)
    (hs : env.session = .ok (some sess))
    (hst : env.statusRpc = .ok (some st))
    (hauth : st.authenticated = true)
    (hadm : st.is_admin_result = true) :
    (verifyAndFixAdminAccess env).syncCalls = 0 ∧
    (verifyAndFixAdminAccess env).verdict.success = true := by
  simp [verifyAndFixAdminAccess, verifyBody, getAdminStatus, hs, hst, hauth,
    hadm]

/-- Claim C10 witness: a divergent snapshot (`metadata_role = "admin"`,
`profile_role = "client"`) with `is_admin_result = true` performs zero sync
calls and returns success. -/
theorem verify_already_admin_no_sync_witness :
    (verifyAndFixAdminAccess
      ⟨.ok (some ⟨⟨"u10"⟩⟩),
       .ok (some ⟨true, some "u10", none, true, some "client", some "admin",
                  true, "t", none, none⟩),
       .ok .null⟩).syncCalls = 0 ∧
    (verifyAndFixAdminAccess
      ⟨.ok (some ⟨⟨"u10"⟩⟩),
       .ok (some ⟨true, some "u10", none, true, some "client", some "admin",
                  true, "t", none, none⟩),
       .ok .null⟩).verdict.success = true :=
  verify_already_admin_no_sync _ ⟨⟨"u10"⟩⟩ _ rfl rfl rfl rfl

end AdminService
